import Mathlib

/-!
Verification of the ArchipelagoOptimalWorld repository against its
natural-language specification.

The development shallowly embeds the Python sources:
  src/WorldPicker/WorldPicker.py                     (ranking variant)
  src/WorldPicker/TestPys/sphere_reader_goodenough.py (goodenough variant)
Python values are modelled by `PyVal`, dicts by ordered key-unique
association lists, attribute access (including the `__getattr__` miss
hook) by explicit functions, and the report writers by functions from
the decoded graph to the list of text lines written to the output file.
-/

namespace ArchWorld

/-- Model of the Python values flowing through the scripts: `None`,
integers, strings, tuples and string-keyed dicts. -/
inductive PyVal : Type where
  | none : PyVal
  | int : Int → PyVal
  | str : String → PyVal
  | tuple : List PyVal → PyVal
  | dict : List (String × PyVal) → PyVal
deriving Inhabited

/-- Test for the Python value `None`. -/
def PyVal.isNone : PyVal → Bool
  | PyVal.none => true
  | _ => false

/-- Python equality comparison of a value against a string literal
(used for the checks against the default string in
`resolve_player_info`). -/
def pyEqStr (v : PyVal) (s : String) : Bool :=
  match v with
  | PyVal.str t => t == s
  | _ => false

/-- Python truthiness: `None`, `0`, the empty string, the empty tuple and
the empty dict are falsy, everything else truthy. -/
def pyTruthy : PyVal → Bool
  | PyVal.none => false
  | PyVal.int n => n != 0
  | PyVal.str s => s != ""
  | PyVal.tuple xs => !xs.isEmpty
  | PyVal.dict m => !m.isEmpty

/-- `str()` of a value as used by the f-strings of the report writers.
Only scalars ever reach an f-string in the scripts; containers are
rendered by opaque markers. -/
def pyStr : PyVal → String
  | PyVal.none => "None"
  | PyVal.int n => toString n
  | PyVal.str s => s
  | PyVal.tuple _ => "<tuple>"
  | PyVal.dict _ => "<dict>"

/-- A placeholder instance produced by `SafeUnpickler` for an unknown
class: identity `(module, typeName)`, the captured constructor
positional and keyword arguments, and the state applied by
`__setstate__` (`PyVal.none` when no state was applied, matching the
`_state = None` initialisation). -/
structure Placeholder where
  module : String
  typeName : String
  args : List PyVal
  kwargs : List (String × PyVal)
  state : PyVal
deriving Inhabited

/-- A decoded object: either an object of a resolvable class, exposing
plain fields, or a placeholder for an unknown class. -/
inductive SlotObj : Type where
  | resolved : List (String × PyVal) → SlotObj
  | placeholder : Placeholder → SlotObj
deriving Inhabited

/-- The `_state` inspection shared by both `__getattr__` bodies
(WorldPicker.py lines 30-35, goodenough lines 17-28): a dict state is
consulted directly; a 2-tuple state has its two components consulted in
order when they are dicts. -/
def stateLookup (state : PyVal) (name : String) : Option PyVal :=
  match state with
  | PyVal.dict m => m.lookup name
  | PyVal.tuple [a, b] =>
    match (match a with | PyVal.dict m => m.lookup name | _ => Option.none) with
    | some v => some v
    | Option.none =>
      match b with | PyVal.dict m => m.lookup name | _ => Option.none
  | _ => Option.none

/-- The guard `name.startswith("__")` of WorldPicker.py line 28:
the first two characters are underscores. -/
def startsWithDunder (name : String) : Bool :=
  name.data.take 2 == ['_', '_']

/-- `PlaceholderObject.__getattr__` of WorldPicker.py (lines 27-44):
dunder names raise at once; then the restored state is consulted; then
the captured positional arguments supply `name` (element 0) and `game`
(element 1). `Option.none` models the final `raise AttributeError`. -/
def wpGetattrHook (p : Placeholder) (name : String) : Option PyVal :=
  if startsWithDunder name then Option.none
  else
    match stateLookup p.state name with
    | some v => some v
    | Option.none =>
      if !p.args.isEmpty then
        if name = "name" ∧ 1 ≤ p.args.length then p.args[0]?
        else if name = "game" ∧ 2 ≤ p.args.length then p.args[1]?
        else Option.none
      else Option.none

/-- Instance `__dict__` of a WorldPicker.py placeholder: the fields set
by `__new__` and `__init__`. -/
def wpInternal (p : Placeholder) (name : String) : Option PyVal :=
  if name = "_new_args" then some (PyVal.tuple p.args)
  else if name = "_new_kwargs" then some (PyVal.dict p.kwargs)
  else if name = "_init_args" then some (PyVal.tuple p.args)
  else if name = "_init_kwargs" then some (PyVal.dict p.kwargs)
  else if name = "_state" then some p.state
  else Option.none

/-- Full `getattr` on a decoded object in the WorldPicker.py variant:
native fields first (instance `__dict__`), then the miss hook for
placeholders. `Option.none` models an `AttributeError`. -/
def wpGetattrFull (obj : SlotObj) (name : String) : Option PyVal :=
  match obj with
  | SlotObj.resolved fields => fields.lookup name
  | SlotObj.placeholder p =>
    match wpInternal p name with
    | some v => some v
    | Option.none => wpGetattrHook p name

/-- `PlaceholderObject.__getattr__` of sphere_reader_goodenough.py
(lines 13-30): only the restored state is consulted; there is no
positional-argument convention in the hook itself. -/
def geGetattrHook (p : Placeholder) (name : String) : Option PyVal :=
  stateLookup p.state name

/-- Instance `__dict__` of a goodenough placeholder (`__init__` sets
`_args`, `_kwargs`, `_state`). -/
def geInternal (p : Placeholder) (name : String) : Option PyVal :=
  if name = "_args" then some (PyVal.tuple p.args)
  else if name = "_kwargs" then some (PyVal.dict p.kwargs)
  else if name = "_state" then some p.state
  else Option.none

/-- Python exceptions that the modelled code can raise. -/
inductive PyExn : Type where
  | attributeError : String → PyExn
  | otherError : String → PyExn
deriving DecidableEq

/-- Full `getattr` on a decoded object in the goodenough variant, in
exception-passing style. -/
def geGetattrFull (obj : SlotObj) (name : String) : Except PyExn PyVal :=
  match obj with
  | SlotObj.resolved fields =>
    match fields.lookup name with
    | some v => Except.ok v
    | Option.none => Except.error (PyExn.attributeError name)
  | SlotObj.placeholder p =>
    match geInternal p name with
    | some v => Except.ok v
    | Option.none =>
      match geGetattrHook p name with
      | some v => Except.ok v
      | Option.none => Except.error (PyExn.attributeError name)

/-- Python `hasattr`: `getattr` succeeds. -/
def geHasattr (obj : SlotObj) (name : String) : Bool :=
  match geGetattrFull obj name with
  | Except.ok _ => true
  | Except.error _ => false

/-- Steps 2 and 3 of `resolve_attribute` (goodenough lines 67-85),
reached when step 1 finds nothing: step 2 consults `_state` (a dict
state returns `state.get(attr_name)`, a 2-tuple state is searched
component-wise); step 3 applies the positional convention to `_args`;
otherwise `None`. -/
def resolveAttrRest (obj : SlotObj) (attr : String) : Except PyExn PyVal :=
  let step2 : Option PyVal :=
    if geHasattr obj "_state" then
      match geGetattrFull obj "_state" with
      | Except.ok (PyVal.dict m) => some ((m.lookup attr).getD PyVal.none)
      | Except.ok (PyVal.tuple [a, b]) =>
        (match (match a with | PyVal.dict m => m.lookup attr | _ => Option.none) with
         | some v => some v
         | Option.none =>
           match b with | PyVal.dict m => m.lookup attr | _ => Option.none)
      | _ => Option.none
    else Option.none
  match step2 with
  | some v => Except.ok v
  | Option.none =>
    let step3 : Option PyVal :=
      if geHasattr obj "_args" then
        match geGetattrFull obj "_args" with
        | Except.ok (PyVal.tuple xs) =>
          if !xs.isEmpty then
            if attr = "name" ∧ 1 ≤ xs.length then xs[0]?
            else if attr = "game" ∧ 2 ≤ xs.length then xs[1]?
            else Option.none
          else Option.none
        | _ => Option.none
      else Option.none
    match step3 with
    | some v => Except.ok v
    | Option.none => Except.ok PyVal.none

/-- `resolve_attribute` of sphere_reader_goodenough.py (lines 56-85).
Step 1 tries `getattr` and keeps a non-None result, catching only
`AttributeError`; the remaining steps are `resolveAttrRest`. The result
`Except.ok PyVal.none` is the Unknown outcome. -/
def resolve_attribute (obj : SlotObj) (attr : String) : Except PyExn PyVal :=
  match geGetattrFull obj attr with
  | Except.ok v =>
    if !v.isNone then Except.ok v
    else resolveAttrRest obj attr
  | Except.error (PyExn.attributeError _) => resolveAttrRest obj attr
  | Except.error e => Except.error e

/-- `resolve_player_info` of WorldPicker.py (lines 70-92): strategy 1
reads `.name` and `.game` keeping truthy values; strategy 2 (when the
name is still the default) takes elements 0 and 1 of `_new_args` when it
has at least two; strategy 3 (when the name is still the default) reads
`name` and `game` from a dict-valued `_state`. -/
def resolve_player_info (slot_obj : SlotObj) : PyVal × PyVal :=
  let p_name : PyVal := PyVal.str "Unknown"
  let p_game : PyVal := PyVal.str "Unknown"
  -- Strategy 1: standard attributes, kept only when truthy
  let p_name :=
    match wpGetattrFull slot_obj "name" with
    | some v => if pyTruthy v then v else p_name
    | Option.none => p_name
  let p_game :=
    match wpGetattrFull slot_obj "game" with
    | some v => if pyTruthy v then v else p_game
    | Option.none => p_game
  -- Strategy 2: __new__ arguments
  let pair :=
    if pyEqStr p_name "Unknown" then
      match wpGetattrFull slot_obj "_new_args" with
      | some (PyVal.tuple xs) =>
        if !xs.isEmpty ∧ 2 ≤ xs.length then
          (xs.getD 0 PyVal.none, xs.getD 1 PyVal.none)
        else (p_name, p_game)
      | _ => (p_name, p_game)
    else (p_name, p_game)
  let p_name := pair.1
  let p_game := pair.2
  -- Strategy 3: state dict
  if pyEqStr p_name "Unknown" then
    match wpGetattrFull slot_obj "_state" with
    | some (PyVal.dict m) =>
      ((m.lookup "name").getD p_name, (m.lookup "game").getD p_game)
    | _ => (p_name, p_game)
  else (p_name, p_game)

/-! ## The decoded graph sections used by the report builders -/

/-- One sphere: the Python dict mapping player id to the set of location
ids, in insertion order. -/
abbrev Sphere := List (Int × List Int)

/-- The per-game data consulted by the location-table builder. -/
structure GameData where
  location_name_to_id : Option (List (String × Int))

/-- The projection of the decoded root mapping onto the keys the report
builders read; `Option.none` models an absent key. -/
structure DecodedRoot where
  spheres : Option (List Sphere)
  datapackage : Option (List (String × GameData))
  slot_info : Option (List (Int × SlotObj))

/-- Python dict assignment `m[k] = v` on an ordered key-unique
association list: overwrite in place when the key is present, append
otherwise. -/
def pySetAssoc {κ β : Type} [BEq κ] (m : List (κ × β)) (k : κ) (v : β) :
    List (κ × β) :=
  if m.any (fun p => p.1 == k) then
    m.map (fun p => if p.1 == k then (k, v) else p)
  else m ++ [(k, v)]

/-- The dict comprehension inverting `location_name_to_id`
(WorldPicker.py line 141): later duplicate ids overwrite earlier
entries. -/
def invertNameToId (m : List (String × Int)) : List (Int × String) :=
  m.foldl (fun acc p => pySetAssoc acc p.2 p.1) []

/-- Building `location_db` (WorldPicker.py lines 136-142, identical in
the goodenough variant): one inverted table per datapackage game that
carries a `location_name_to_id` entry. -/
def buildLocationDb (dp : List (String × GameData)) :
    List (String × List (Int × String)) :=
  dp.foldl
    (fun db p =>
      match p.2.location_name_to_id with
      | some m => pySetAssoc db p.1 (invertNameToId m)
      | Option.none => db)
    []

/-- Building `player_db` in WorldPicker.py (lines 144-149) via
`resolve_player_info`. -/
def buildPlayerDb (slot_info : List (Int × SlotObj)) :
    List (Int × (PyVal × PyVal)) :=
  slot_info.foldl
    (fun db p => pySetAssoc db p.1 (resolve_player_info p.2)) []

/-- The value of `resolve_attribute` in the goodenough player-db
builder; the error branch is unreachable (the resolver never raises,
see the C8 development below). -/
def resolveAttrVal (obj : SlotObj) (attr : String) : PyVal :=
  match resolve_attribute obj attr with
  | Except.ok v => v
  | Except.error _ => PyVal.none

/-- Building `player_db` in the goodenough variant (lines 118-137):
falsy resolutions fall back to synthesized names. -/
def buildPlayerDbGE (slot_info : List (Int × SlotObj)) :
    List (Int × (PyVal × PyVal)) :=
  slot_info.foldl
    (fun db p =>
      let sid := p.1
      let p_name := resolveAttrVal p.2 "name"
      let p_game := resolveAttrVal p.2 "game"
      let p_name :=
        if !pyTruthy p_name then PyVal.str s!"Unknown Player {sid}" else p_name
      let p_game :=
        if !pyTruthy p_game then PyVal.str "Unknown Game" else p_game
      pySetAssoc db sid (p_name, p_game))
    []

/-! ## Sorting as performed by the Python `sorted` builtin -/

/-- `sorted` over a set of integers (dict keys or a location set):
ascending order of the distinct elements. -/
def pySortedInts (l : List Int) : List Int :=
  List.insertionSort (fun a b => a ≤ b) l.dedup

/-- `sorted(sphere.keys())`. -/
def pySortedKeys (s : Sphere) : List Int :=
  pySortedInts (s.map Prod.fst)

/-- The comparison used by `sorted(count_dict.items(), key=count,
reverse=True)`: descending count. -/
def descCnt (a b : Int × Nat) : Prop := b.2 ≤ a.2

instance : DecidableRel descCnt := fun a b => Nat.decLe b.2 a.2

instance : IsTotal (Int × Nat) descCnt :=
  ⟨fun a b => Nat.le_total b.2 a.2⟩

instance : IsTrans (Int × Nat) descCnt :=
  ⟨fun _ _ _ h1 h2 => Nat.le_trans h2 h1⟩

/-- Python stable descending sort by count (insertion sort with a
non-strict comparison is stable, matching the stability contract of the
`sorted` builtin with `reverse=True`). -/
def pyStableSortDesc (l : List (Int × Nat)) : List (Int × Nat) :=
  List.insertionSort descCnt l

/-! ## Shared rendering helpers -/

/-- `player_db.get(player_id, default)` with the synthesized default
entry (WorldPicker.py line 174, goodenough line 162). -/
def playerInfoFor (pdb : List (Int × (PyVal × PyVal))) (pid : Int) :
    PyVal × PyVal :=
  match pdb.lookup pid with
  | some v => v
  | Option.none => (PyVal.str s!"Player {pid}", PyVal.str "Unknown")

/-- `location_db.get(p_game, {})`: the game value is a dict key, so a
non-string game never matches a table entry. -/
def locMapFor (ldb : List (String × List (Int × String))) (game : PyVal) :
    List (Int × String) :=
  match game with
  | PyVal.str g => (ldb.lookup g).getD []
  | _ => []

/-- `loc_map.get(loc_id, f"Unknown ID {loc_id}")`. -/
def locNameFor (loc_map : List (Int × String)) (lid : Int) : String :=
  (loc_map.lookup lid).getD s!"Unknown ID {lid}"

/-- The 60-character separator row of the report header, written via
the string-repetition expression of WorldPicker.py line 162. -/
def sepLine : String := String.mk (List.replicate 60 (Char.ofNat 61))

/-- The header block written by both report writers: title, source
name, total sphere count, a 60-character separator and a blank line. -/
def reportHeader (srcName : String) (total : Nat) : List String :=
  ["=== READABLE SPHERES REPORT ===",
   s!"Source: {srcName}",
   s!"Total Spheres: {total}",
   sepLine,
   ""]

/-- The ranking-section header line of WorldPicker.py (line 187). -/
def rankingHeader : String := "=== SPHERE 1 CHECK COUNT RANKING ==="

/-- The lines written for one player inside a sphere block of the
goodenough variant (lines 159-175): the player line, one line per
location in ascending id order, then a blank line. -/
def gePlayerBlock (pdb : List (Int × (PyVal × PyVal)))
    (ldb : List (String × List (Int × String))) (sphere : Sphere)
    (pid : Int) : List String :=
  let location_ids := (sphere.lookup pid).getD []
  let pinfo := playerInfoFor pdb pid
  let n := pyStr pinfo.1
  let g := pyStr pinfo.2
  let loc_map := locMapFor ldb pinfo.2
  s!"  Player: {n} ({g})" ::
    ((pySortedInts location_ids).map (fun lid =>
      let ln := locNameFor loc_map lid
      s!"    - {ln}")) ++ [""]

/-- One sphere block of the goodenough variant (lines 152-176): the
1-indexed header, then either the empty-sphere marker or the player
blocks for the keys in ascending order followed by a blank line. -/
def geSphereBlock (pdb : List (Int × (PyVal × PyVal)))
    (ldb : List (String × List (Int × String))) (i : Nat)
    (sphere : Sphere) : List String :=
  let n := i + 1
  s!"--- Sphere {n} ---" ::
    (if sphere.isEmpty then ["  (Empty Sphere)"]
     else ((pySortedKeys sphere).map
        (fun pid => gePlayerBlock pdb ldb sphere pid)).flatten ++ [""])

/-- The sphere loop of the goodenough variant, one block per sphere in
stream order. -/
def geBody (pdb : List (Int × (PyVal × PyVal)))
    (ldb : List (String × List (Int × String))) :
    Nat → List Sphere → List String
  | _, [] => []
  | i, s :: rest => geSphereBlock pdb ldb i s ++ geBody pdb ldb (i + 1) rest

/-- Failure mode of `extract_readable_spheres`. -/
inductive GEError : Type where
  | missingSpheres : GEError
deriving DecidableEq

/-- Outcome of `extract_readable_spheres`: the lines written to the
report file, when one is produced, and the failure reported. -/
structure GEOutcome where
  reportLines : Option (List String)
  error : Option GEError

/-- `extract_readable_spheres` of sphere_reader_goodenough.py
(lines 87-178), from the decoded graph on: the missing-section check,
the two database builds, then the report. -/
def extract_readable_spheres (srcName : String) (data : DecodedRoot) :
    GEOutcome :=
  match data.spheres with
  | Option.none => ⟨Option.none, some GEError.missingSpheres⟩
  | some spheres_data =>
    let location_db := buildLocationDb (data.datapackage.getD [])
    let player_db := buildPlayerDbGE (data.slot_info.getD [])
    ⟨some (reportHeader srcName spheres_data.length ++
        geBody player_db location_db 0 spheres_data),
      Option.none⟩

/-! ## The WorldPicker.py ranking-variant renderer -/

/-- The player loop over the first sphere (WorldPicker.py lines
172-184): renders each player block and records the per-player check
count in `count_dict` (set to 0, then incremented once per rendered
location line, hence ending at the number of rendered locations). -/
def wpRenderPlayers (pdb : List (Int × (PyVal × PyVal)))
    (ldb : List (String × List (Int × String))) (sphere : Sphere) :
    List Int → List (Int × Nat) → List String × List (Int × Nat)
  | [], cd => ([], cd)
  | pid :: ps, cd =>
    let location_ids := (sphere.lookup pid).getD []
    let pinfo := playerInfoFor pdb pid
    let cd := pySetAssoc cd pid 0
    let n := pyStr pinfo.1
    let g := pyStr pinfo.2
    let loc_map := locMapFor ldb pinfo.2
    let sortedLocs := pySortedInts location_ids
    let locLines := sortedLocs.map (fun lid =>
      let ln := locNameFor loc_map lid
      s!"    - {ln}")
    let cd := pySetAssoc cd pid sortedLocs.length
    let res := wpRenderPlayers pdb ldb sphere ps cd
    (s!"  Player: {n} ({g})" :: locLines ++ [""] ++ res.1, res.2)

/-- The sphere loop of WorldPicker.py (lines 164-186). For every sphere
the header is written first; an empty sphere writes the marker and
continues; a non-empty sphere with index other than 0 exits the loop
(`break`) right after its header; sphere 0 renders its players and then
assigns `sorted_count`. Returns the lines written, the final
`count_dict` and the `sorted_count` register (`Option.none` when the
assignment at line 186 was never executed). -/
def wpSphereLoop (pdb : List (Int × (PyVal × PyVal)))
    (ldb : List (String × List (Int × String))) :
    Nat → List (Int × Nat) → Option (List (Int × Nat)) → List Sphere →
    List String × List (Int × Nat) × Option (List (Int × Nat))
  | _, cd, sc, [] => ([], cd, sc)
  | i, cd, sc, sphere :: rest =>
    let n := i + 1
    let hdr := s!"--- Sphere {n} ---"
    if sphere.isEmpty then
      let res := wpSphereLoop pdb ldb (i + 1) cd sc rest
      (hdr :: "  (Empty Sphere)" :: res.1, res.2)
    else if i ≠ 0 then
      ([hdr], cd, sc)
    else
      let pres := wpRenderPlayers pdb ldb sphere (pySortedKeys sphere) cd
      let sc1 := some (pyStableSortDesc pres.2)
      let res := wpSphereLoop pdb ldb (i + 1) pres.2 sc1 rest
      (hdr :: pres.1 ++ [""] ++ res.1, res.2)

/-- One line of the ranking section (WorldPicker.py line 190). -/
def fmtRankLine (pdb : List (Int × (PyVal × PyVal))) (pc : Int × Nat) :
    String :=
  let pinfo := playerInfoFor pdb pc.1
  let n := pyStr pinfo.1
  let g := pyStr pinfo.2
  let c := pc.2
  s!"  Player: {n} ({g}), Checks: {c}"

/-- Failure modes of `process_archipelago_file` after decoding: the
missing-section exit at lines 130-132, and the `NameError` on
`sorted_count` at line 188 when line 186 was never executed. -/
inductive WPError : Type where
  | missingSpheres : WPError
  | nameErrorSortedCount : WPError
deriving DecidableEq

/-- Outcome of the report stage of `process_archipelago_file`: the
databases when they were built, the lines present in the report file
(writes before an exception are flushed when the `with` block closes),
and the failure. -/
structure WPOutcome where
  tables :
    Option ((List (String × List (Int × String))) ×
      List (Int × (PyVal × PyVal)))
  reportLines : Option (List String)
  error : Option WPError

/-- The report stage of `process_archipelago_file` (WorldPicker.py
lines 130-190), from the decoded graph on: the missing-section check,
the database builds, the sphere loop, then the ranking section, whose
header line is written before `sorted_count` is read. -/
def process_archipelago_file (srcName : String) (data : DecodedRoot) :
    WPOutcome :=
  match data.spheres with
  | Option.none => ⟨Option.none, Option.none, some WPError.missingSpheres⟩
  | some spheres_data =>
    let location_db := buildLocationDb (data.datapackage.getD [])
    let player_db := buildPlayerDb (data.slot_info.getD [])
    let res := wpSphereLoop player_db location_db 0 [] Option.none spheres_data
    let linesToRankHdr :=
      reportHeader srcName spheres_data.length ++ res.1 ++ [rankingHeader]
    match res.2.2 with
    | Option.none =>
      ⟨some (location_db, player_db), some linesToRankHdr,
        some WPError.nameErrorSortedCount⟩
    | some sorted_count =>
      ⟨some (location_db, player_db),
        some (linesToRankHdr ++ sorted_count.map (fmtRankLine player_db)),
        Option.none⟩

/-! ## The type resolver of `SafeUnpickler.find_class` -/

/-- The class returned by `find_class`: either the genuinely importable
class, or a dynamically synthesized placeholder class. The `id` of a
placeholder class is its object identity (each `type(...)` call makes a
fresh one). -/
inductive FoundClass : Type where
  | real : String → String → FoundClass
  | placeholderClass : Nat → String → String → FoundClass
deriving DecidableEq

/-- The memo state of a `SafeUnpickler`: `known_placeholders` plus a
counter supplying fresh identities for new `type(...)` calls. -/
structure UnpicklerSt where
  known_placeholders : List ((String × String) × Nat)
  nextId : Nat

/-- `SafeUnpickler.find_class` (WorldPicker.py lines 57-67),
parameterized by the environment predicate telling which
(module, name) pairs the underlying `find_class` can import. An
unimportable pair is served from `known_placeholders`, synthesizing and
memoizing a fresh class on first sight. -/
def find_class (importable : String → String → Bool) (st : UnpicklerSt)
    (module name : String) : FoundClass × UnpicklerSt :=
  if importable module name then (FoundClass.real module name, st)
  else
    match st.known_placeholders.lookup (module, name) with
    | some cid => (FoundClass.placeholderClass cid module name, st)
    | Option.none =>
      (FoundClass.placeholderClass st.nextId module name,
        ⟨st.known_placeholders ++ [((module, name), st.nextId)],
          st.nextId + 1⟩)

/-! ## The decompression front-end -/

/-- Result of the read-and-decompress stage of
`process_archipelago_file` (lines 104-119): an empty file stops the
pipeline; otherwise the bytes handed to the unpickler together with the
flag recording whether the logged raw-pickle fallback was taken. -/
inductive FrontResult : Type where
  | emptyFile : FrontResult
  | decode : List Nat → Bool → FrontResult
deriving DecidableEq

/-- Lines 104-119 of WorldPicker.py: read the bytes, reject an empty
file, then try `zlib.decompress` on everything after the version-tag
byte; on `zlib.error` print the fallback notice and use the raw bytes
unchanged as the stream to unpickle. `inflate` is the external
decompressor collaborator (`Option.none` models `zlib.error`). -/
def readAndDecompress (inflate : List Nat → Option (List Nat))
    (raw_data : List Nat) : FrontResult :=
  if raw_data.isEmpty then FrontResult.emptyFile
  else
    match inflate (raw_data.drop 1) with
    | some decompressed => FrontResult.decode decompressed false
    | Option.none => FrontResult.decode raw_data true

/-! ## Helper lemmas -/

theorem lookup_append_of_none {κ β : Type} [BEq κ] (k : κ)
    (l1 l2 : List (κ × β)) (h : l1.lookup k = Option.none) :
    (l1 ++ l2).lookup k = l2.lookup k := by
  induction l1 with
  | nil => rfl
  | cons a t ih =>
    simp only [List.lookup, List.cons_append] at h ⊢
    cases hk : k == a.1 with
    | true => simp [hk] at h
    | false => simp only [hk] at h ⊢; exact ih h

theorem pySetAssoc_fresh {κ β : Type} [BEq κ] (m : List (κ × β)) (k : κ)
    (v : β) (h : m.any (fun p => p.1 == k) = false) :
    pySetAssoc m k v = m ++ [(k, v)] := by
  simp [pySetAssoc, h]

theorem map_keep_of_fresh {κ β : Type} [BEq κ] (k : κ) (w : β) :
    ∀ m : List (κ × β), m.any (fun p => p.1 == k) = false →
    m.map (fun p => if p.1 == k then (k, w) else p) = m
  | [], _ => rfl
  | a :: t, h => by
    simp only [List.any_cons, Bool.or_eq_false_iff] at h
    simp [h.1, map_keep_of_fresh k w t h.2]

theorem pySetAssoc_update_last {κ β : Type} [BEq κ] [LawfulBEq κ]
    (m : List (κ × β)) (k : κ) (v w : β)
    (h : m.any (fun p => p.1 == k) = false) :
    pySetAssoc (m ++ [(k, v)]) k w = m ++ [(k, w)] := by
  have hany : (m ++ [(k, v)]).any (fun p => p.1 == k) = true := by
    simp [List.any_append]
  simp only [pySetAssoc, hany, if_true, List.map_append]
  simp [map_keep_of_fresh k w m h]

theorem wpRenderPlayers_counts (pdb : List (Int × (PyVal × PyVal)))
    (ldb : List (String × List (Int × String))) (sphere : Sphere) :
    ∀ (pids : List Int) (cd : List (Int × Nat)), pids.Nodup →
    (∀ p ∈ pids, cd.any (fun q => q.1 == p) = false) →
    (wpRenderPlayers pdb ldb sphere pids cd).2 =
      cd ++ pids.map (fun pid =>
        (pid, (pySortedInts ((sphere.lookup pid).getD [])).length))
  | [], cd, _, _ => by simp [wpRenderPlayers]
  | pid :: ps, cd, hnd, hfresh => by
    have h0 : cd.any (fun q => q.1 == pid) = false :=
      hfresh pid (List.mem_cons_self pid ps)
    have e1 : pySetAssoc cd pid 0 = cd ++ [(pid, 0)] :=
      pySetAssoc_fresh cd pid 0 h0
    have e2 : pySetAssoc (cd ++ [(pid, 0)]) pid
        (pySortedInts ((sphere.lookup pid).getD [])).length =
        cd ++ [(pid, (pySortedInts ((sphere.lookup pid).getD [])).length)] :=
      pySetAssoc_update_last cd pid 0 _ h0
    have hnd' : ps.Nodup := (List.nodup_cons.mp hnd).2
    have hpid : pid ∉ ps := (List.nodup_cons.mp hnd).1
    have hfresh' : ∀ p ∈ ps,
        (cd ++ [(pid, (pySortedInts ((sphere.lookup pid).getD [])).length)]).any
          (fun q => q.1 == p) = false := by
      intro p hp
      have h1 : cd.any (fun q => q.1 == p) = false :=
        hfresh p (List.mem_cons_of_mem pid hp)
      have h2 : (pid == p) = false := by
        cases hpq : pid == p with
        | true => exact absurd (eq_of_beq hpq ▸ hp) hpid
        | false => rfl
      simp [List.any_append, h1, h2]
    have ih := wpRenderPlayers_counts pdb ldb sphere ps
      (cd ++ [(pid, (pySortedInts ((sphere.lookup pid).getD [])).length)])
      hnd' hfresh'
    simp only [wpRenderPlayers, e1, e2, ih]
    simp

theorem pySortedKeys_nodup (s : Sphere) : (pySortedKeys s).Nodup :=
  ((List.perm_insertionSort _ _).nodup_iff).mpr (List.nodup_dedup _)

theorem wpSphereLoop_sc_frozen (pdb : List (Int × (PyVal × PyVal)))
    (ldb : List (String × List (Int × String))) :
    ∀ (ss : List Sphere) (i : Nat) (cd : List (Int × Nat))
      (sc : Option (List (Int × Nat))), i ≠ 0 →
    (wpSphereLoop pdb ldb i cd sc ss).2.2 = sc
  | [], _, _, _, _ => rfl
  | sphere :: rest, i, cd, sc, hi => by
    by_cases he : sphere.isEmpty
    · simp only [wpSphereLoop, he, if_true]
      exact wpSphereLoop_sc_frozen pdb ldb rest (i + 1) cd sc
        (Nat.succ_ne_zero i)
    · simp [wpSphereLoop, he, hi]

/-- The value of `count_dict` after the sphere-0 player loop: one entry
per player of the first sphere, in ascending player-id order, counting
that player's first-sphere locations. -/
def sphereCounts (s : Sphere) : List (Int × Nat) :=
  (pySortedKeys s).map (fun pid =>
    (pid, (pySortedInts ((s.lookup pid).getD [])).length))

theorem wpSphereLoop_first_nonempty (pdb : List (Int × (PyVal × PyVal)))
    (ldb : List (String × List (Int × String))) (s0 : Sphere)
    (rest : List Sphere) (hne : s0.isEmpty = false) :
    (wpSphereLoop pdb ldb 0 [] Option.none (s0 :: rest)).2.2 =
      some (pyStableSortDesc (sphereCounts s0)) := by
  have hcounts : (wpRenderPlayers pdb ldb s0 (pySortedKeys s0) []).2 =
      sphereCounts s0 := by
    have := wpRenderPlayers_counts pdb ldb s0 (pySortedKeys s0) []
      (pySortedKeys_nodup s0) (fun p _ => rfl)
    simpa [sphereCounts] using this
  simp only [wpSphereLoop, hne, Bool.false_eq_true, if_false, ne_eq,
    not_true_eq_false, if_true, hcounts]
  exact wpSphereLoop_sc_frozen pdb ldb rest 1 (sphereCounts s0)
    (some (pyStableSortDesc (sphereCounts s0))) one_ne_zero

theorem geBody_eq_blocks (pdb : List (Int × (PyVal × PyVal)))
    (ldb : List (String × List (Int × String))) :
    ∀ (ss : List Sphere) (i : Nat),
    geBody pdb ldb i ss =
      (((List.range' i ss.length).zip ss).map
        (fun p => geSphereBlock pdb ldb p.1 p.2)).flatten
  | [], i => by simp [geBody]
  | s :: rest, i => by
    simp only [geBody, List.length_cons, List.range'_succ, List.zip_cons_cons,
      List.map_cons, List.flatten_cons]
    rw [geBody_eq_blocks pdb ldb rest (i + 1)]

theorem geBody_append (pdb : List (Int × (PyVal × PyVal)))
    (ldb : List (String × List (Int × String))) :
    ∀ (l1 l2 : List Sphere) (i : Nat),
    geBody pdb ldb i (l1 ++ l2) =
      geBody pdb ldb i l1 ++ geBody pdb ldb (i + l1.length) l2
  | [], l2, i => by simp [geBody]
  | s :: t, l2, i => by
    have ih := geBody_append pdb ldb t l2 (i + 1)
    have harith : i + 1 + t.length = i + (t.length + 1) := by omega
    simp only [List.cons_append, geBody, List.length_cons, List.append_eq,
      ih, harith, List.append_assoc]

theorem filter_orderedInsert_descCnt (c : Nat) (a : Int × Nat) :
    ∀ L : List (Int × Nat),
    (List.orderedInsert descCnt a L).filter (fun p => p.2 == c) =
      if a.2 == c then a :: L.filter (fun p => p.2 == c)
      else L.filter (fun p => p.2 == c)
  | [] => by
    by_cases h : a.2 == c <;> simp [List.orderedInsert, List.filter, h]
  | b :: l => by
    by_cases hr : descCnt a b
    · by_cases ha : a.2 == c <;>
        simp [List.orderedInsert, if_pos hr, List.filter, ha]
    · have hlt : a.2 < b.2 := Nat.lt_of_not_le hr
      have ihl := filter_orderedInsert_descCnt c a l
      by_cases ha : a.2 == c
      · have hb : (b.2 == c) = false := by
          have hac : a.2 = c := eq_of_beq ha
          have : b.2 ≠ c := by omega
          simpa using this
        simp [List.orderedInsert, if_neg hr, List.filter, hb, ihl, ha]
      · simp only [List.orderedInsert, if_neg hr, List.filter_cons, ihl, ha,
          Bool.false_eq_true, if_false]
  termination_by L => L.length

theorem filter_pyStableSortDesc (c : Nat) :
    ∀ l : List (Int × Nat),
    (pyStableSortDesc l).filter (fun p => p.2 == c) =
      l.filter (fun p => p.2 == c)
  | [] => rfl
  | a :: l => by
    simp only [pyStableSortDesc, List.insertionSort]
    rw [filter_orderedInsert_descCnt c a (List.insertionSort descCnt l)]
    have ih : (List.insertionSort descCnt l).filter (fun p => p.2 == c) =
        l.filter (fun p => p.2 == c) := by
      simpa [pyStableSortDesc] using filter_pyStableSortDesc c l
    by_cases ha : a.2 == c <;> simp [List.filter_cons, ha, ih]

theorem geGetattrFull_error_form (obj : SlotObj) (name : String) :
    ∀ e, geGetattrFull obj name = Except.error e →
      e = PyExn.attributeError name := by
  intro e h
  cases obj with
  | resolved fields =>
    simp only [geGetattrFull] at h
    cases hf : fields.lookup name with
    | some v => simp [hf] at h
    | none => simp [hf] at h; exact h.symm
  | placeholder p =>
    simp only [geGetattrFull] at h
    cases hi : geInternal p name with
    | some v => simp [hi] at h
    | none =>
      cases hh : geGetattrHook p name with
      | some v => simp [hi, hh] at h
      | none => simp [hi, hh] at h; exact h.symm

theorem resolveAttrRest_ok (obj : SlotObj) (attr : String) :
    ∃ v, resolveAttrRest obj attr = Except.ok v := by
  simp only [resolveAttrRest]
  split
  · exact ⟨_, rfl⟩
  · split
    · exact ⟨_, rfl⟩
    · exact ⟨_, rfl⟩

theorem wpSphereLoop_sc_none (pdb : List (Int × (PyVal × PyVal)))
    (ldb : List (String × List (Int × String))) (ss : List Sphere)
    (hcond : ss = [] ∨ ∃ s rest, ss = s :: rest ∧ s.isEmpty = true) :
    (wpSphereLoop pdb ldb 0 [] Option.none ss).2.2 = Option.none := by
  rcases hcond with rfl | ⟨s, rest, rfl, he⟩
  · rfl
  · simp only [wpSphereLoop, he, if_true]
    exact wpSphereLoop_sc_frozen pdb ldb rest 1 [] Option.none one_ne_zero

instance : IsTotal Int (fun a b : Int => a ≤ b) :=
  ⟨fun a b => Int.le_total a b⟩

instance : IsTrans Int (fun a b : Int => a ≤ b) :=
  ⟨fun _ _ _ => Int.le_trans⟩

/-! ## Claim theorems -/

/-- C1 (amended): a placeholder built with positional arguments
("Alice", "ChessGame") whose restored state is a dict supplying neither
`name` nor `game` reports `name` = "Alice" and `game` = "ChessGame"
through the attribute-miss hook of WorldPicker.py, and
`resolve_player_info` extracts the same pair. (The goodenough
`resolve_attribute` does not: see the counterexample.) -/
theorem c1_positional_convention (mAttrs : List (String × PyVal))
    (extraArgs : List PyVal) (p : Placeholder)
    (hp : p = ⟨"pkg.mod", "Foo",
      PyVal.str "Alice" :: PyVal.str "ChessGame" :: extraArgs, [],
      PyVal.dict mAttrs⟩)
    (hn : mAttrs.lookup "name" = Option.none)
    (hg : mAttrs.lookup "game" = Option.none) :
    wpGetattrHook p "name" = some (PyVal.str "Alice") ∧
    wpGetattrHook p "game" = some (PyVal.str "ChessGame") ∧
    resolve_player_info (SlotObj.placeholder p) =
      (PyVal.str "Alice", PyVal.str "ChessGame") := by
  subst hp
  have hs1 : startsWithDunder "name" = false := by decide
  have hs2 : startsWithDunder "game" = false := by decide
  refine ⟨?_, ?_, ?_⟩
  · simp [wpGetattrHook, stateLookup, hs1, hn]
  · simp [wpGetattrHook, stateLookup, hs2, hg]
  · simp [resolve_player_info, wpGetattrFull, wpInternal, wpGetattrHook,
      stateLookup, hs1, hs2, hn, hg, pyTruthy, pyEqStr]

/-- C1 witness: the claim scenario, with restored state
`{"level": 3}`. -/
theorem c1_positional_convention_witness :
    ((([("level", PyVal.int 3)] : List (String × PyVal)).lookup "name" =
        Option.none) ∧
     (([("level", PyVal.int 3)] : List (String × PyVal)).lookup "game" =
        Option.none)) ∧
    (wpGetattrHook
        ⟨"pkg.mod", "Foo", [PyVal.str "Alice", PyVal.str "ChessGame"], [],
          PyVal.dict [("level", PyVal.int 3)]⟩ "name" =
        some (PyVal.str "Alice") ∧
     wpGetattrHook
        ⟨"pkg.mod", "Foo", [PyVal.str "Alice", PyVal.str "ChessGame"], [],
          PyVal.dict [("level", PyVal.int 3)]⟩ "game" =
        some (PyVal.str "ChessGame") ∧
     resolve_player_info (SlotObj.placeholder
        ⟨"pkg.mod", "Foo", [PyVal.str "Alice", PyVal.str "ChessGame"], [],
          PyVal.dict [("level", PyVal.int 3)]⟩) =
        (PyVal.str "Alice", PyVal.str "ChessGame")) :=
  ⟨⟨rfl, rfl⟩,
    c1_positional_convention [("level", PyVal.int 3)] [] _ rfl rfl rfl⟩

/-- The placeholder of the C1 scenario, as decoded by the goodenough
script. -/
def c1CexObj : SlotObj :=
  SlotObj.placeholder
    ⟨"pkg.mod", "Foo", [PyVal.str "Alice", PyVal.str "ChessGame"], [],
      PyVal.dict [("level", PyVal.int 3)]⟩

/-- C1 counterexample: on the claim scenario the goodenough
`resolve_attribute` (cited by the claim) returns None for both `name`
and `game` — the dict-valued restored state short-circuits step 2 with
`state.get(attr_name)` and the positional convention is never reached —
so attribute resolution does not return "Alice". -/
theorem c1_counterexample :
    resolve_attribute c1CexObj "name" = Except.ok PyVal.none ∧
    resolve_attribute c1CexObj "game" = Except.ok PyVal.none ∧
    (Except.ok PyVal.none : Except PyExn PyVal) ≠
      Except.ok (PyVal.str "Alice") := by
  refine ⟨rfl, rfl, fun h => ?_⟩
  exact PyVal.noConfusion (Except.ok.inj h)

/-- C4: the fixed priority order of attribute resolution on a
placeholder. A dict restored state containing the attribute wins
outright (in particular over the positional arguments); a 2-tuple state
is searched first component then second; the positional convention is
reached only when the state supplies nothing; native fields win over
the hook; and in the goodenough resolver a state entry also shadows the
positional arguments. -/
theorem c4_priority_order (p : Placeholder) (attr : String)
    (hd : startsWithDunder attr = false) :
    (∀ m v, p.state = PyVal.dict m → m.lookup attr = some v →
      wpGetattrHook p attr = some v) ∧
    (∀ a b m1 v, p.state = PyVal.tuple [a, b] → a = PyVal.dict m1 →
      m1.lookup attr = some v → wpGetattrHook p attr = some v) ∧
    (∀ a m2 v, p.state = PyVal.tuple [a, PyVal.dict m2] →
      (match a with
       | PyVal.dict m => m.lookup attr
       | _ => Option.none) = Option.none →
      m2.lookup attr = some v → wpGetattrHook p attr = some v) ∧
    (stateLookup p.state attr = Option.none → p.args.isEmpty = false →
      ((attr = "name" → 1 ≤ p.args.length →
          wpGetattrHook p attr = p.args[0]?) ∧
       (attr = "game" → 2 ≤ p.args.length →
          wpGetattrHook p attr = p.args[1]?))) ∧
    (∀ v, wpInternal p attr = some v →
      wpGetattrFull (SlotObj.placeholder p) attr = some v) ∧
    (∀ m v, geInternal p attr = Option.none → p.state = PyVal.dict m →
      m.lookup attr = some v → v.isNone = false →
      resolve_attribute (SlotObj.placeholder p) attr = Except.ok v) := by
  refine ⟨?_, ?_, ?_, ?_, ?_, ?_⟩
  · intro m v hs hl
    simp [wpGetattrHook, stateLookup, hd, hs, hl]
  · intro a b m1 v hs ha hl
    subst ha
    simp [wpGetattrHook, stateLookup, hd, hs, hl]
  · intro a m2 v hs hnone hl
    simp [wpGetattrHook, stateLookup, hd, hs, hnone, hl]
  · intro hs hargs
    constructor
    · intro ha hlen
      subst ha
      simp [wpGetattrHook, hd, hs, hargs, hlen]
    · intro ha hlen
      subst ha
      have h1 : 1 ≤ p.args.length := Nat.le_trans (by omega) hlen
      simp [wpGetattrHook, hd, hs, hargs, hlen]
  · intro v hv
    simp [wpGetattrFull, hv]
  · intro m v hi hs hl hv
    simp [resolve_attribute, geGetattrFull, hi, geGetattrHook, stateLookup,
      hs, hl, hv]

/-- A placeholder whose restored state and positional arguments both
could supply `name`. -/
def c4P : Placeholder :=
  ⟨"NetUtils", "NetworkSlot", [PyVal.str "ArgName", PyVal.str "ArgGame"],
    [], PyVal.dict [("name", PyVal.str "StateName")]⟩

/-- C4 witness: on `c4P` the state entry shadows the positional
argument in both the WorldPicker hook and the goodenough resolver. -/
theorem c4_priority_order_witness :
    (startsWithDunder "name" = false) ∧
    wpGetattrHook c4P "name" = some (PyVal.str "StateName") ∧
    resolve_attribute (SlotObj.placeholder c4P) "name" =
      Except.ok (PyVal.str "StateName") :=
  ⟨by decide,
   (c4_priority_order c4P "name" (by decide)).1 _ _ rfl rfl,
   (c4_priority_order c4P "name" (by decide)).2.2.2.2.2 _ _ rfl rfl rfl rfl⟩

/-- C5: type resolution never fails — an unimportable (module, name)
pair is served a placeholder class carrying exactly that identity — and
the memo table makes a second resolution of the same pair in the
resulting unpickler state return the identical class, leaving the state
unchanged. -/
theorem c5_placeholder_memoized (importable : String → String → Bool)
    (st : UnpicklerSt) (module name : String)
    (h : importable module name = false) :
    ∃ cid st1,
      find_class importable st module name =
        (FoundClass.placeholderClass cid module name, st1) ∧
      find_class importable st1 module name =
        (FoundClass.placeholderClass cid module name, st1) := by
  cases hl : st.known_placeholders.lookup (module, name) with
  | some cid =>
    refine ⟨cid, st, ?_, ?_⟩ <;> simp [find_class, h, hl]
  | none =>
    refine ⟨st.nextId,
      ⟨st.known_placeholders ++ [((module, name), st.nextId)],
        st.nextId + 1⟩, ?_, ?_⟩
    · simp [find_class, h, hl]
    · have hl2 : (st.known_placeholders ++
          [((module, name), st.nextId)]).lookup (module, name) =
          some st.nextId := by
        rw [lookup_append_of_none _ _ _ hl]
        simp [List.lookup]
      simp [find_class, h, hl2]

/-- C5 witness: an empty registry and a fresh unpickler state. -/
theorem c5_placeholder_memoized_witness :
    ((fun _ _ => false : String → String → Bool) "NetUtils" "NetworkSlot"
        = false) ∧
    (∃ cid st1,
      find_class (fun _ _ => false) ⟨[], 0⟩ "NetUtils" "NetworkSlot" =
        (FoundClass.placeholderClass cid "NetUtils" "NetworkSlot", st1) ∧
      find_class (fun _ _ => false) st1 "NetUtils" "NetworkSlot" =
        (FoundClass.placeholderClass cid "NetUtils" "NetworkSlot", st1)) :=
  ⟨rfl, c5_placeholder_memoized (fun _ _ => false) ⟨[], 0⟩
    "NetUtils" "NetworkSlot" rfl⟩

/-- C6: a decoded graph without a `spheres` entry makes both report
builders fail with the missing-section error before building any table
or writing any report line. -/
theorem c6_missing_spheres (srcName : String) (data : DecodedRoot)
    (h : data.spheres = Option.none) :
    process_archipelago_file srcName data =
      ⟨Option.none, Option.none, some WPError.missingSpheres⟩ ∧
    extract_readable_spheres srcName data =
      ⟨Option.none, some GEError.missingSpheres⟩ := by
  constructor <;>
    simp [process_archipelago_file, extract_readable_spheres, h]

/-- A decoded graph with no `spheres` entry. -/
def c6Data : DecodedRoot := ⟨Option.none, Option.none, Option.none⟩

/-- C6 witness. -/
theorem c6_missing_spheres_witness :
    (c6Data.spheres = Option.none) ∧
    (process_archipelago_file "input.archipelago" c6Data =
      ⟨Option.none, Option.none, some WPError.missingSpheres⟩ ∧
    extract_readable_spheres "input.archipelago" c6Data =
      ⟨Option.none, some GEError.missingSpheres⟩) :=
  ⟨rfl, c6_missing_spheres "input.archipelago" c6Data rfl⟩

/-- C7: when the bytes after the version-tag byte fail to inflate, the
pipeline does not abort: it proceeds to the decode stage with the raw
input bytes, with the fallback flagged (logged). -/
theorem c7_decompress_fallback (inflate : List Nat → Option (List Nat))
    (raw_data : List Nat) (hne : raw_data.isEmpty = false)
    (hfail : inflate (raw_data.drop 1) = Option.none) :
    readAndDecompress inflate raw_data =
      FrontResult.decode raw_data true := by
  simp only [List.drop_one] at hfail
  simp [readAndDecompress, hne, hfail]

/-- C7 witness: a decompressor rejecting everything, on the input bytes
[1, 2, 3]. -/
theorem c7_decompress_fallback_witness :
    (([1, 2, 3] : List Nat).isEmpty = false) ∧
    ((fun _ => Option.none : List Nat → Option (List Nat))
        (([1, 2, 3] : List Nat).drop 1) = Option.none) ∧
    readAndDecompress (fun _ => Option.none) [1, 2, 3] =
      FrontResult.decode [1, 2, 3] true :=
  ⟨rfl, rfl, c7_decompress_fallback (fun _ => Option.none) [1, 2, 3] rfl rfl⟩

/-- C8: the goodenough attribute resolver is total — for every decoded
value (resolved object or placeholder) and every attribute name it
returns a value (`PyVal.none` being the Unknown outcome) and never
propagates an exception, including when `getattr` on the object raises
inside step 1. -/
theorem c8_resolver_never_raises (obj : SlotObj) (attr : String) :
    ∃ v, resolve_attribute obj attr = Except.ok v := by
  cases hg : geGetattrFull obj attr with
  | ok v =>
    by_cases hn : v.isNone
    · simp only [resolve_attribute, hg, hn, Bool.not_true,
        Bool.false_eq_true, if_false]
      exact resolveAttrRest_ok obj attr
    · exact ⟨v, by simp [resolve_attribute, hg, hn]⟩
  | error e =>
    have he := geGetattrFull_error_form obj attr e hg
    subst he
    simp only [resolve_attribute, hg]
    exact resolveAttrRest_ok obj attr

/-- C2 (amended): in the goodenough variant the report is the header
followed by exactly one block per sphere, in stream order and
1-indexed; a non-empty block lists its players in ascending player-id
order and each player its locations in ascending location-id order.
(The ranking variant stops rendering at the first non-empty sphere
after the first: see the counterexample.) -/
theorem c2_rendering_order (srcName : String) (data : DecodedRoot)
    (ss : List Sphere) (h : data.spheres = some ss) :
    ∀ pdb ldb, pdb = buildPlayerDbGE (data.slot_info.getD []) →
      ldb = buildLocationDb (data.datapackage.getD []) →
    (extract_readable_spheres srcName data).reportLines =
      some (reportHeader srcName ss.length ++
        (((List.range' 0 ss.length).zip ss).map
          (fun q => geSphereBlock pdb ldb q.1 q.2)).flatten) ∧
    (∀ (i n : Nat) (s : Sphere), n = i + 1 →
      (geSphereBlock pdb ldb i s).head? = some s!"--- Sphere {n} ---") ∧
    (∀ (i n : Nat) (s : Sphere), n = i + 1 → s.isEmpty = false →
      geSphereBlock pdb ldb i s =
        s!"--- Sphere {n} ---" ::
          ((pySortedKeys s).map
            (fun pid => gePlayerBlock pdb ldb s pid)).flatten ++ [""]) ∧
    (∀ s : Sphere,
      List.Sorted (fun a b : Int => a ≤ b) (pySortedKeys s) ∧
      (pySortedKeys s).Perm (s.map Prod.fst).dedup) ∧
    (∀ ids : List Int,
      List.Sorted (fun a b : Int => a ≤ b) (pySortedInts ids) ∧
      (pySortedInts ids).Perm ids.dedup) := by
  intro pdb ldb hpdb hldb
  subst hpdb hldb
  refine ⟨?_, ?_, ?_, ?_, ?_⟩
  · simp only [extract_readable_spheres, h]
    rw [geBody_eq_blocks]
  · intro i n s hn
    subst hn
    cases he : s.isEmpty <;> simp [geSphereBlock, he]
  · intro i n s hn he
    subst hn
    simp [geSphereBlock, he]
  · intro s
    exact ⟨List.sorted_insertionSort _ _, List.perm_insertionSort _ _⟩
  · intro ids
    exact ⟨List.sorted_insertionSort _ _, List.perm_insertionSort _ _⟩

/-- The spheres of the C2 witness scenario. -/
def c2WSpheres : List Sphere := [[(2, [30]), (1, [11, 10])], []]

/-- The decoded graph of the C2 witness scenario. -/
def c2WData : DecodedRoot := ⟨some c2WSpheres, Option.none, Option.none⟩

/-- C2 witness: the goodenough report for a two-sphere graph is the
header plus one block per sphere. -/
theorem c2_rendering_order_witness :
    (c2WData.spheres = some c2WSpheres) ∧
    (extract_readable_spheres "w.pickle" c2WData).reportLines =
      some (reportHeader "w.pickle" c2WSpheres.length ++
        (((List.range' 0 c2WSpheres.length).zip c2WSpheres).map
          (fun q => geSphereBlock
            (buildPlayerDbGE (c2WData.slot_info.getD []))
            (buildLocationDb (c2WData.datapackage.getD [])) q.1 q.2)).flatten) :=
  ⟨rfl,
    (c2_rendering_order "w.pickle" c2WData c2WSpheres rfl _ _ rfl rfl).1⟩

/-- The decoded graph of the C2 counterexample: three non-empty
spheres. -/
def c2CexData : DecodedRoot :=
  ⟨some [[(1, [10])], [(1, [20])], [(1, [30])]], Option.none, Option.none⟩

/-- C2 counterexample: the ranking variant (process_archipelago_file,
cited by the claim) does not produce one block per sphere: on a graph
with three non-empty spheres the report has a header-only block for
sphere 2 and no block at all for sphere 3. -/
theorem c2_counterexample :
    (c2CexData.spheres = some [[(1, [10])], [(1, [20])], [(1, [30])]]) ∧
    (process_archipelago_file "f.archipelago" c2CexData).reportLines =
      some ["=== READABLE SPHERES REPORT ===", "Source: f.archipelago",
        "Total Spheres: 3",
        sepLine,
        "", "--- Sphere 1 ---", "  Player: Player 1 (Unknown)",
        "    - Unknown ID 10", "", "", "--- Sphere 2 ---",
        "=== SPHERE 1 CHECK COUNT RANKING ===",
        "  Player: Player 1 (Unknown), Checks: 1"] ∧
    "--- Sphere 3 ---" ∉
      ["=== READABLE SPHERES REPORT ===", "Source: f.archipelago",
        "Total Spheres: 3",
        sepLine,
        "", "--- Sphere 1 ---", "  Player: Player 1 (Unknown)",
        "    - Unknown ID 10", "", "", "--- Sphere 2 ---",
        "=== SPHERE 1 CHECK COUNT RANKING ===",
        "  Player: Player 1 (Unknown), Checks: 1"] :=
  ⟨rfl, rfl, by decide⟩

/-- C3: the ranking section ranks exactly the per-player location
counts of the first sphere (`sphereCounts` reads only sphere 0),
sorted descending by count by a stable sort: the result is sorted for
`descCnt`, is a permutation of the encounter-ordered count list, and
preserves the encounter order inside every tie class (the filter at
each count value is unchanged). -/
theorem c3_ranking_first_sphere (srcName : String) (data : DecodedRoot)
    (s0 : Sphere) (rest : List Sphere)
    (h : data.spheres = some (s0 :: rest)) (hne : s0.isEmpty = false) :
    ∀ pdb cl, pdb = buildPlayerDb (data.slot_info.getD []) →
      cl = sphereCounts s0 →
    ∃ pre,
      (process_archipelago_file srcName data).reportLines =
        some (pre ++ rankingHeader ::
          (pyStableSortDesc cl).map (fmtRankLine pdb)) ∧
      (process_archipelago_file srcName data).error = Option.none ∧
      List.Sorted descCnt (pyStableSortDesc cl) ∧
      (pyStableSortDesc cl).Perm cl ∧
      (∀ c : Nat, (pyStableSortDesc cl).filter (fun q => q.2 == c) =
        cl.filter (fun q => q.2 == c)) := by
  intro pdb cl hpdb hcl
  subst hpdb hcl
  have hsc := wpSphereLoop_first_nonempty
    (buildPlayerDb (data.slot_info.getD []))
    (buildLocationDb (data.datapackage.getD [])) s0 rest hne
  refine ⟨reportHeader srcName (s0 :: rest).length ++
    (wpSphereLoop (buildPlayerDb (data.slot_info.getD []))
      (buildLocationDb (data.datapackage.getD [])) 0 [] Option.none
      (s0 :: rest)).1, ?_, ?_, ?_, ?_, ?_⟩
  · simp only [process_archipelago_file, h, hsc]
    simp [List.append_assoc]
  · simp only [process_archipelago_file, h, hsc]
  · exact List.sorted_insertionSort descCnt _
  · exact List.perm_insertionSort descCnt _
  · intro c
    exact filter_pyStableSortDesc c _

/-- The two slot objects of the C3 witness scenario (placeholders whose
positional arguments carry name and game). -/
def slotAliceWP : SlotObj :=
  SlotObj.placeholder
    ⟨"NetUtils", "NetworkSlot", [PyVal.str "Alice", PyVal.str "GameA"],
      [], PyVal.none⟩

/-- The Bob slot of the C3 witness scenario. -/
def slotBobWP : SlotObj :=
  SlotObj.placeholder
    ⟨"NetUtils", "NetworkSlot", [PyVal.str "Bob", PyVal.str "GameB"],
      [], PyVal.none⟩

/-- The decoded graph of the C3 witness scenario: sphere-1 data
{P1: {10, 11}, P2: {20}} with players Alice and Bob. -/
def c3Data : DecodedRoot :=
  ⟨some [[(1, [10, 11]), (2, [20])]], Option.none,
    some [(1, slotAliceWP), (2, slotBobWP)]⟩

/-- C3 witness: on the claim scenario the ranking lists Alice with
count 2 before Bob with count 1. -/
theorem c3_ranking_first_sphere_witness :
    (c3Data.spheres = some [[(1, [10, 11]), (2, [20])]]) ∧
    (([(1, [10, 11]), (2, [20])] : Sphere).isEmpty = false) ∧
    (∃ pre,
      (process_archipelago_file "f" c3Data).reportLines =
        some (pre ++ rankingHeader ::
          (pyStableSortDesc (sphereCounts [(1, [10, 11]), (2, [20])])).map
            (fmtRankLine (buildPlayerDb (c3Data.slot_info.getD [])))) ∧
      (process_archipelago_file "f" c3Data).error = Option.none ∧
      List.Sorted descCnt
        (pyStableSortDesc (sphereCounts [(1, [10, 11]), (2, [20])])) ∧
      (pyStableSortDesc (sphereCounts [(1, [10, 11]), (2, [20])])).Perm
        (sphereCounts [(1, [10, 11]), (2, [20])]) ∧
      (∀ c : Nat,
        (pyStableSortDesc
          (sphereCounts [(1, [10, 11]), (2, [20])])).filter
            (fun q => q.2 == c) =
        (sphereCounts [(1, [10, 11]), (2, [20])]).filter
          (fun q => q.2 == c))) ∧
    (process_archipelago_file "f" c3Data).reportLines =
      some ["=== READABLE SPHERES REPORT ===", "Source: f",
        "Total Spheres: 1",
        sepLine,
        "", "--- Sphere 1 ---", "  Player: Alice (GameA)",
        "    - Unknown ID 10", "    - Unknown ID 11", "",
        "  Player: Bob (GameB)", "    - Unknown ID 20", "", "",
        "=== SPHERE 1 CHECK COUNT RANKING ===",
        "  Player: Alice (GameA), Checks: 2",
        "  Player: Bob (GameB), Checks: 1"] :=
  ⟨rfl, rfl,
    c3_ranking_first_sphere "f" c3Data [(1, [10, 11]), (2, [20])] [] rfl
      rfl _ _ rfl rfl,
    rfl⟩

/-- C9 (amended): in the goodenough variant every empty sphere entry
renders exactly the marker line after its 1-indexed header and nothing
else — the report around it is the blocks of the preceding and
following spheres. (In the ranking variant only the spheres reached
before the early loop exit are rendered: see the counterexample.) -/
theorem c9_empty_sphere_marker (srcName : String) (data : DecodedRoot)
    (pre suf : List Sphere) (s : Sphere)
    (h : data.spheres = some (pre ++ s :: suf)) (he : s.isEmpty = true) :
    ∀ pdb ldb k, pdb = buildPlayerDbGE (data.slot_info.getD []) →
      ldb = buildLocationDb (data.datapackage.getD []) →
      k = pre.length →
    (∀ i n : Nat, n = i + 1 → geSphereBlock pdb ldb i s =
      [s!"--- Sphere {n} ---", "  (Empty Sphere)"]) ∧
    (∀ n : Nat, n = k + 1 →
      (extract_readable_spheres srcName data).reportLines =
        some (reportHeader srcName (pre ++ s :: suf).length ++
          (geBody pdb ldb 0 pre ++
            (s!"--- Sphere {n} ---" :: "  (Empty Sphere)" ::
              geBody pdb ldb (k + 1) suf)))) := by
  intro pdb ldb k hpdb hldb hk
  subst hpdb hldb hk
  constructor
  · intro i n hn
    subst hn
    simp [geSphereBlock, he]
  · intro n hn
    subst hn
    simp only [extract_readable_spheres, h]
    rw [geBody_append _ _ pre (s :: suf) 0]
    simp [geBody, geSphereBlock, he, Nat.zero_add]

/-- The decoded graph of the C9 witness scenario: an empty sphere
between two non-empty ones. -/
def c9WData : DecodedRoot :=
  ⟨some [[(1, [10])], [], [(2, [20])]], Option.none, Option.none⟩

/-- C9 witness: the middle empty sphere renders exactly its header and
the marker; the whole goodenough report is exhibited. -/
theorem c9_empty_sphere_marker_witness :
    (c9WData.spheres = some ([[(1, [10])]] ++ [] :: [[(2, [20])]])) ∧
    (([] : Sphere).isEmpty = true) ∧
    (geSphereBlock (buildPlayerDbGE (c9WData.slot_info.getD []))
        (buildLocationDb (c9WData.datapackage.getD [])) 1 [] =
      ["--- Sphere 2 ---", "  (Empty Sphere)"]) ∧
    (extract_readable_spheres "g" c9WData).reportLines =
      some ["=== READABLE SPHERES REPORT ===", "Source: g",
        "Total Spheres: 3",
        sepLine,
        "", "--- Sphere 1 ---", "  Player: Player 1 (Unknown)",
        "    - Unknown ID 10", "", "", "--- Sphere 2 ---",
        "  (Empty Sphere)", "--- Sphere 3 ---",
        "  Player: Player 2 (Unknown)", "    - Unknown ID 20", "", ""] :=
  ⟨rfl, rfl,
    (c9_empty_sphere_marker "g" c9WData [[(1, [10])]] [[(2, [20])]] []
      rfl rfl _ _ _ rfl rfl rfl).1 1 2 rfl,
    rfl⟩

/-- The decoded graph of the C9 counterexample: the third sphere is
empty but sits after a non-empty second sphere. -/
def c9CexData : DecodedRoot :=
  ⟨some [[(1, [10])], [(2, [20])], []], Option.none, Option.none⟩

/-- C9 counterexample: in the ranking variant (cited by the claim) the
empty third sphere renders neither a header nor the marker — the
report contains no "(Empty Sphere)" line at all. -/
theorem c9_counterexample :
    (c9CexData.spheres = some [[(1, [10])], [(2, [20])], []]) ∧
    (([] : Sphere).isEmpty = true) ∧
    (process_archipelago_file "f" c9CexData).reportLines =
      some ["=== READABLE SPHERES REPORT ===", "Source: f",
        "Total Spheres: 3",
        sepLine,
        "", "--- Sphere 1 ---", "  Player: Player 1 (Unknown)",
        "    - Unknown ID 10", "", "", "--- Sphere 2 ---",
        "=== SPHERE 1 CHECK COUNT RANKING ===",
        "  Player: Player 1 (Unknown), Checks: 1"] ∧
    "  (Empty Sphere)" ∉
      ["=== READABLE SPHERES REPORT ===", "Source: f",
        "Total Spheres: 3",
        sepLine,
        "", "--- Sphere 1 ---", "  Player: Player 1 (Unknown)",
        "    - Unknown ID 10", "", "", "--- Sphere 2 ---",
        "=== SPHERE 1 CHECK COUNT RANKING ===",
        "  Player: Player 1 (Unknown), Checks: 1"] :=
  ⟨rfl, rfl, rfl, by decide⟩

/-- C10 (amended): when the spheres sequence is empty or its first
sphere is an empty mapping, report generation fails with the unbound
`sorted_count` error after writing the sphere blocks AND the ranking
header line: the report file ends with the ranking header and contains
no ranking entries. -/
theorem c10_ranking_name_error (srcName : String) (data : DecodedRoot)
    (ss : List Sphere) (h : data.spheres = some ss)
    (hcond : ss = [] ∨ ∃ s rest, ss = s :: rest ∧ s.isEmpty = true) :
    ∃ L, (process_archipelago_file srcName data).error =
        some WPError.nameErrorSortedCount ∧
      (process_archipelago_file srcName data).reportLines = some L ∧
      L.getLast? = some rankingHeader ∧ rankingHeader ∈ L := by
  have hsc := wpSphereLoop_sc_none
    (buildPlayerDb (data.slot_info.getD []))
    (buildLocationDb (data.datapackage.getD [])) ss hcond
  refine ⟨reportHeader srcName ss.length ++
    (wpSphereLoop (buildPlayerDb (data.slot_info.getD []))
      (buildLocationDb (data.datapackage.getD [])) 0 [] Option.none ss).1
    ++ [rankingHeader], ?_, ?_, ?_, ?_⟩
  · simp only [process_archipelago_file, h, hsc]
  · simp only [process_archipelago_file, h, hsc]
  · exact List.getLast?_concat _
  · simp

/-- The decoded graph of the C10 witness scenario: one empty sphere. -/
def c10WData : DecodedRoot := ⟨some [[]], Option.none, Option.none⟩

/-- C10 witness: with a single empty sphere the run errors on
`sorted_count` and the file ends with the ranking header. -/
theorem c10_ranking_name_error_witness :
    (c10WData.spheres = some [[]]) ∧
    (([[]] : List Sphere) = [] ∨
      ∃ s rest, ([[]] : List Sphere) = s :: rest ∧ s.isEmpty = true) ∧
    (∃ L, (process_archipelago_file "f" c10WData).error =
        some WPError.nameErrorSortedCount ∧
      (process_archipelago_file "f" c10WData).reportLines = some L ∧
      L.getLast? = some rankingHeader ∧ rankingHeader ∈ L) ∧
    (process_archipelago_file "f" c10WData).reportLines =
      some ["=== READABLE SPHERES REPORT ===", "Source: f",
        "Total Spheres: 1",
        sepLine,
        "", "--- Sphere 1 ---", "  (Empty Sphere)",
        "=== SPHERE 1 CHECK COUNT RANKING ==="] :=
  ⟨rfl, Or.inr ⟨[], [], rfl, rfl⟩,
    c10_ranking_name_error "f" c10WData [[]] rfl
      (Or.inr ⟨[], [], rfl, rfl⟩),
    rfl⟩

/-- The decoded graph of the C10 counterexample: an empty spheres
sequence. -/
def c10CexData : DecodedRoot := ⟨some [], Option.none, Option.none⟩

/-- C10 counterexample: the run does error on `sorted_count`, but the
ranking header line is written before the error, so the report file
does contain the "=== SPHERE 1 CHECK COUNT RANKING ===" line the claim
says is absent. -/
theorem c10_counterexample :
    (c10CexData.spheres = some []) ∧
    (process_archipelago_file "f" c10CexData).error =
      some WPError.nameErrorSortedCount ∧
    (process_archipelago_file "f" c10CexData).reportLines =
      some ["=== READABLE SPHERES REPORT ===", "Source: f",
        "Total Spheres: 0",
        sepLine,
        "", "=== SPHERE 1 CHECK COUNT RANKING ==="] ∧
    rankingHeader ∈
      ["=== READABLE SPHERES REPORT ===", "Source: f",
        "Total Spheres: 0",
        sepLine,
        "", "=== SPHERE 1 CHECK COUNT RANKING ==="] :=
  ⟨rfl, rfl, rfl, by decide⟩

end ArchWorld
